import Mathlib

/-!
Verification of the Monte Carlo π estimator of `PythonApplication8.py`.

The statistics panel (lines 133–143 of the source) draws `total_points`
points uniformly from [-1,1]×[-1,1], counts those with x² + y² ≤ 1 in
`sim_inside`, sets `my_pi = 4 * (sim_inside / total_points)`,
`real_pi = np.pi` and `error = abs((my_pi - real_pi) / real_pi) * 100`.
Lines 160–165 classify `error` with thresholds 1 and 5.  The Manim scene
(lines 43–98) draws its own points from [-3,3]×[-3,3] and tests
x² + y² ≤ radius² with radius = 3 (lines 49, 73).

Python floats are modelled as rationals (every literal involved — 0.5, 1,
3, 5 — is exactly representable, and float comparison is exact order
comparison), `np.pi` as the real constant π, and the loops as structural
recursion over the explicit list of draws that the ambient random number
generator produced.  The partiality of `my_pi` (Python raises
`ZeroDivisionError` when `total_points = 0`) is modelled with `Except`.
-/

namespace MonteCarloPi

/-- A sampled point (x, y); the Python floats are modelled as rationals. -/
abbrev Sample := ℚ × ℚ

/-- Inside test of the statistics loop, line 138: `x**2 + y**2 <= 1`. -/
def statInside (p : Sample) : Bool := decide (p.1 ^ 2 + p.2 ^ 2 ≤ 1)

/-- The statistics loop of lines 135–139: starting from the accumulated
count, add 1 for every draw with `x**2 + y**2 <= 1`. -/
def simInsideLoop : List Sample → ℕ → ℕ
  | [], acc => acc
  | p :: rest, acc => simInsideLoop rest (if statInside p then acc + 1 else acc)

/-- `sim_inside`: initialised to 0 at line 133, accumulated by the loop of
lines 135–139 over the sequence of draws. -/
def sim_inside (draws : List Sample) : ℕ := simInsideLoop draws 0

/-- `my_pi = 4 * (sim_inside / total_points)`, line 141, for a positive
sample count `n` (ℚ division; the `n = 0` case is modelled by `my_pi_run`). -/
def my_pi (n : ℕ) (draws : List Sample) : ℚ :=
  4 * ((sim_inside draws : ℚ) / (n : ℚ))

/-- `real_pi = np.pi`, line 142, modelled as the real constant π. -/
noncomputable def real_pi : ℝ := Real.pi

/-- `error = abs((my_pi - real_pi) / real_pi) * 100`, line 143. -/
noncomputable def error (est : ℚ) : ℝ := |((est : ℝ) - real_pi) / real_pi| * 100

/-- The three outcomes of the classification at lines 160–165:
`st.success` (excellent), `st.warning` (acceptable), `st.error` (poor). -/
inductive Quality
  | excellent
  | acceptable
  | poor
deriving DecidableEq

/-- Lines 160–165: `if error < 1: st.success(...) elif error < 5:
st.warning(...) else: st.error(...)`. -/
def classify (e : ℚ) : Quality :=
  if e < 1 then Quality.excellent
  else if e < 5 then Quality.acceptable
  else Quality.poor

/-- Line 141 with Python's actual division semantics for an arbitrary
integer `total_points`: the loop `for _ in range(total_points)` consumes
`max total_points 0` draws, then the division raises `ZeroDivisionError`
exactly when `total_points = 0`. -/
def my_pi_run (n : ℤ) (draws : List Sample) : Except String ℚ :=
  let k := sim_inside (draws.take n.toNat)
  if n = 0 then Except.error "ZeroDivisionError: division by zero"
  else Except.ok (4 * ((k : ℚ) / (n : ℚ)))

/-- Lower bound of the slider at line 28: `st.slider(..., 10, 2000, 500, step=10)`. -/
def slider_min : ℤ := 10

/-- Upper bound of the slider at line 28. -/
def slider_max : ℤ := 2000

/-- `radius = 3`, line 49 of the Manim scene. -/
def radius : ℚ := 3

/-- `is_inside = (x**2 + y**2) <= (radius**2)`, line 73 of the scene. -/
def scene_is_inside (x y : ℚ) : Bool := decide (x ^ 2 + y ^ 2 ≤ radius ^ 2)

/-- The scene loop of lines 68–78: `inside_count += 1` for every animation
draw with `x**2 + y**2 <= radius**2`. -/
def sceneInsideLoop : List Sample → ℕ → ℕ
  | [], acc => acc
  | p :: rest, acc =>
      sceneInsideLoop rest (if scene_is_inside p.1 p.2 then acc + 1 else acc)

/-- `inside_count`: initialised to 0 at line 60, accumulated over the
scene's own draws (lines 68–78). -/
def inside_count (dots : List Sample) : ℕ := sceneInsideLoop dots 0

/-- The statistics loop computes the accumulator plus the number of draws
passing the inside test. -/
theorem simInsideLoop_eq (l : List Sample) (acc : ℕ) :
    simInsideLoop l acc = acc + l.countP statInside := by
  induction l generalizing acc with
  | nil => rfl
  | cons p rest ih =>
    simp only [simInsideLoop, ih, List.countP_cons]
    cases h : statInside p <;> simp [h] <;> omega

/-- `sim_inside` is the number of draws with x² + y² ≤ 1. -/
theorem sim_inside_eq_countP (l : List Sample) :
    sim_inside l = l.countP statInside := by
  simp [sim_inside, simInsideLoop_eq]

/-- C1: for every positive sample count n and every sequence of n draws,
the estimator returns estimate = 4·inside_count/n and
relative_error_percent = 100·|estimate − π|/π, where inside_count is the
number of draws (x, y) with x² + y² ≤ 1. -/
theorem c1_estimator_output (n : ℕ) (draws : List Sample) (hn : 0 < n)
    (hlen : draws.length = n) :
    sim_inside draws = draws.countP (fun p => decide (p.1 ^ 2 + p.2 ^ 2 ≤ 1)) ∧
    my_pi n draws = 4 * (sim_inside draws : ℚ) / (n : ℚ) ∧
    error (my_pi n draws) =
      100 * |((my_pi n draws : ℚ) : ℝ) - Real.pi| / Real.pi := by
  refine ⟨sim_inside_eq_countP draws, ?_, ?_⟩
  · rw [my_pi]
    ring
  · rw [error, real_pi, abs_div, abs_of_pos Real.pi_pos]
    ring

/-- Witness for C1 at n = 1, draws = [(0, 0)]. -/
theorem c1_witness :
    sim_inside [(((0 : ℚ)), ((0 : ℚ)))] =
      [(((0 : ℚ)), ((0 : ℚ)))].countP (fun p => decide (p.1 ^ 2 + p.2 ^ 2 ≤ 1)) ∧
    my_pi 1 [(((0 : ℚ)), ((0 : ℚ)))] =
      4 * (sim_inside [(((0 : ℚ)), ((0 : ℚ)))] : ℚ) / ((1 : ℕ) : ℚ) ∧
    error (my_pi 1 [(((0 : ℚ)), ((0 : ℚ)))]) =
      100 * |((my_pi 1 [(((0 : ℚ)), ((0 : ℚ)))] : ℚ) : ℝ) - Real.pi| / Real.pi :=
  c1_estimator_output 1 [((0 : ℚ), (0 : ℚ))] (by decide) rfl

/-- C2: on the fixed deterministic draws (0,0), (1,1), (0.5,0.5), (1,0)
with n = 4 the statistics loop computes inside_count = 3 and the
estimate 4·3/4 = 3. -/
theorem c2_concrete_scenario :
    sim_inside [((0 : ℚ), (0 : ℚ)), (1, 1), (1/2, 1/2), (1, 0)] = 3 ∧
    my_pi 4 [((0 : ℚ), (0 : ℚ)), (1, 1), (1/2, 1/2), (1, 0)] = 3 := by
  have hcount : sim_inside [((0 : ℚ), (0 : ℚ)), (1, 1), (1/2, 1/2), (1, 0)] = 3 := by
    rw [sim_inside_eq_countP]
    norm_num [List.countP_cons, statInside]
  refine ⟨hcount, ?_⟩
  rw [my_pi, hcount]
  norm_num

/-- C3: a sampled point lying exactly on the circle boundary is counted as
inside: when x² + y² = 1 the statistics test of line 138 accepts (x, y) and
the loop increments the counter, and the corresponding scene point
(3x, 3y), which lies exactly on the scene circle of radius 3, is accepted
by the scene test of line 73. -/
theorem c3_boundary_inclusive (x y : ℚ) (rest : List Sample)
    (h : x ^ 2 + y ^ 2 = 1) :
    statInside (x, y) = true ∧
    sim_inside ((x, y) :: rest) = sim_inside rest + 1 ∧
    scene_is_inside (3 * x) (3 * y) = true := by
  have hin : statInside (x, y) = true := by
    simp [statInside, h]
  refine ⟨hin, ?_, ?_⟩
  · simp [sim_inside, simInsideLoop, hin, simInsideLoop_eq, Nat.add_comm]
  · simp only [scene_is_inside, radius, decide_eq_true_eq]
    nlinarith [h]

/-- Witness for C3 at the boundary point (3/5, 4/5) with rest = [(1, 1)]. -/
theorem c3_witness :
    statInside ((3/5 : ℚ), (4/5 : ℚ)) = true ∧
    sim_inside (((3/5 : ℚ), (4/5 : ℚ)) :: [((1 : ℚ), (1 : ℚ))]) =
      sim_inside [((1 : ℚ), (1 : ℚ))] + 1 ∧
    scene_is_inside (3 * (3/5 : ℚ)) (3 * (4/5 : ℚ)) = true :=
  c3_boundary_inclusive (3/5) (4/5) [((1 : ℚ), (1 : ℚ))] (by norm_num)

/-- C4: for every positive sample count n and every sequence of n draws,
0 ≤ inside_count ≤ n and the estimate 4·inside_count/n lies in [0, 4]. -/
theorem c4_invariants (n : ℕ) (draws : List Sample) (hn : 0 < n)
    (hlen : draws.length = n) :
    sim_inside draws ≤ n ∧ 0 ≤ my_pi n draws ∧ my_pi n draws ≤ 4 := by
  have hcount : sim_inside draws ≤ n := by
    rw [sim_inside_eq_countP, ← hlen]
    exact List.countP_le_length _
  have hnpos : (0 : ℚ) < (n : ℚ) := by exact_mod_cast hn
  refine ⟨hcount, ?_, ?_⟩
  · rw [my_pi]
    positivity
  · rw [my_pi]
    have hdiv : (sim_inside draws : ℚ) / (n : ℚ) ≤ 1 := by
      rw [div_le_one hnpos]
      exact_mod_cast hcount
    nlinarith [hdiv]

/-- Witness for C4 at n = 2, draws = [(0, 0), (1, 1)]. -/
theorem c4_witness :
    sim_inside [((0 : ℚ), (0 : ℚ)), (1, 1)] ≤ 2 ∧
    0 ≤ my_pi 2 [((0 : ℚ), (0 : ℚ)), (1, 1)] ∧
    my_pi 2 [((0 : ℚ), (0 : ℚ)), (1, 1)] ≤ 4 :=
  c4_invariants 2 [((0 : ℚ), (0 : ℚ)), (1, 1)] (by decide) rfl

/-- C5 counterexample: at a relative error of exactly 5 the code takes the
`st.error` branch (poor), while the claim's "1% to 5% inclusive is
acceptable" requires the acceptable label there. -/
theorem c5_counterexample :
    classify 5 = Quality.poor ∧ classify 5 ≠ Quality.acceptable := by
  constructor
  · decide
  · decide

/-- C5 as amended: the classification is a pure three-way threshold
function of the relative error alone: below 1 it is excellent, at least 1
and strictly below 5 it is acceptable, and at least 5 it is poor (the
5% boundary falls in the poor branch, not the acceptable one). -/
theorem c5_classification (e : ℚ) :
    (e < 1 → classify e = Quality.excellent) ∧
    (1 ≤ e → e < 5 → classify e = Quality.acceptable) ∧
    (5 ≤ e → classify e = Quality.poor) := by
  refine ⟨fun h1 => ?_, fun h1 h5 => ?_, fun h5 => ?_⟩
  · rw [classify, if_pos h1]
  · rw [classify, if_neg (by linarith), if_pos h5]
  · rw [classify, if_neg (by linarith), if_neg (by linarith)]

/-- Witness for C5 in each of the three bands: errors 1/2, 3 and 7. -/
theorem c5_witness :
    classify (1/2 : ℚ) = Quality.excellent ∧
    classify (3 : ℚ) = Quality.acceptable ∧
    classify (7 : ℚ) = Quality.poor :=
  ⟨(c5_classification (1/2)).1 (by norm_num),
   (c5_classification 3).2.1 (by norm_num) (by norm_num),
   (c5_classification 7).2.2 (by norm_num)⟩

/-- C6: the code has no guard on the sample count.  At n = 0 the division
of line 141 raises an uncaught `ZeroDivisionError` after the sampling
loop, and at n = -4 the loop body never runs and the code silently
returns the estimate 0 with no error at all — neither is the clean
invalid-sample-count rejection before computation that the claim
requires. -/
theorem c6_no_guard :
    my_pi_run 0 [] = Except.error "ZeroDivisionError: division by zero" ∧
    my_pi_run (-4) [] = Except.ok 0 := by
  constructor
  · rfl
  · norm_num [my_pi_run, sim_inside, simInsideLoop]

/-- C7: when the sample count comes from the slider of line 28 it lies in
10..2000, hence is positive, the division of line 141 is never by zero and
the `ZeroDivisionError` branch is unreachable: the run returns the
ordinary estimate. -/
theorem c7_slider_range_safe (n : ℤ) (draws : List Sample)
    (hlo : slider_min ≤ n) (hhi : n ≤ slider_max) :
    0 < n ∧
    my_pi_run n draws =
      Except.ok (4 * ((sim_inside (draws.take n.toNat) : ℚ) / (n : ℚ))) := by
  have h0 : 0 < n := lt_of_lt_of_le (by norm_num [slider_min]) hlo
  refine ⟨h0, ?_⟩
  rw [my_pi_run, if_neg (by omega)]

/-- Witness for C7 at the slider default n = 500 with no draws. -/
theorem c7_witness :
    0 < (500 : ℤ) ∧
    my_pi_run 500 [] =
      Except.ok (4 * ((sim_inside (List.take (500 : ℤ).toNat []) : ℚ) /
        ((500 : ℤ) : ℚ))) :=
  c7_slider_range_safe 500 [] (by decide) (by decide)

/-- C8: determinism under fixed randomness: two runs of the estimator fed
the same sequence of draws produce exactly the same inside count, the same
estimate and the same relative error; the computation is a pure function
of n and the draws. -/
theorem c8_deterministic (n : ℕ) (d1 d2 : List Sample) (h : d1 = d2) :
    sim_inside d1 = sim_inside d2 ∧
    my_pi n d1 = my_pi n d2 ∧
    error (my_pi n d1) = error (my_pi n d2) := by
  subst h
  exact ⟨rfl, rfl, rfl⟩

/-- Witness for C8: two runs on the draw sequence [(1/2, 1/2)]. -/
theorem c8_witness :
    sim_inside [((1/2 : ℚ), (1/2 : ℚ))] = sim_inside [((1/2 : ℚ), (1/2 : ℚ))] ∧
    my_pi 1 [((1/2 : ℚ), (1/2 : ℚ))] = my_pi 1 [((1/2 : ℚ), (1/2 : ℚ))] ∧
    error (my_pi 1 [((1/2 : ℚ), (1/2 : ℚ))]) =
      error (my_pi 1 [((1/2 : ℚ), (1/2 : ℚ))]) :=
  c8_deterministic 1 [((1/2 : ℚ), (1/2 : ℚ))] [((1/2 : ℚ), (1/2 : ℚ))] rfl

/-- C9: the statistics panel counts a second, independent sampling,
disjoint from the animation's draws: there is a pair of equally long
streams — one inside the animation's square [-3,3]², one inside the
statistics square [-1,1]² — on which the scene's `inside_count` and the
displayed `sim_inside` differ, so the displayed statistics do not describe
the animated points.  Stream (0,0) for the scene and (1,1) for the panel:
the scene counts 1 inside, the panel displays 0. -/
theorem c9_independent_samplings :
    ([((0 : ℚ), (0 : ℚ))] : List Sample).length =
      ([((1 : ℚ), (1 : ℚ))] : List Sample).length ∧
    ([((0 : ℚ), (0 : ℚ))] : List Sample).all
      (fun p => decide (-3 ≤ p.1 ∧ p.1 ≤ 3 ∧ -3 ≤ p.2 ∧ p.2 ≤ 3)) = true ∧
    ([((1 : ℚ), (1 : ℚ))] : List Sample).all
      (fun p => decide (-1 ≤ p.1 ∧ p.1 ≤ 1 ∧ -1 ≤ p.2 ∧ p.2 ≤ 1)) = true ∧
    inside_count [((0 : ℚ), (0 : ℚ))] ≠ sim_inside [((1 : ℚ), (1 : ℚ))] := by
  have hscene : inside_count [((0 : ℚ), (0 : ℚ))] = 1 := by
    norm_num [inside_count, sceneInsideLoop, scene_is_inside, radius]
  have hstat : sim_inside [((1 : ℚ), (1 : ℚ))] = 0 := by
    norm_num [sim_inside, simInsideLoop, statInside]
  refine ⟨rfl, ?_, ?_, ?_⟩
  · norm_num
  · norm_num
  · rw [hscene, hstat]
    norm_num

/-- C10: for every point (x, y), the scene's inside test
x² + y² ≤ radius² with radius = 3 holds exactly when the unit-circle test
(x/3)² + (y/3)² ≤ 1 holds: the scene's classification is the specified
unit-circle test under uniform scaling by the radius. -/
theorem c10_scaled_unit_circle (x y : ℚ) :
    scene_is_inside x y = true ↔ (x / 3) ^ 2 + (y / 3) ^ 2 ≤ 1 := by
  simp only [scene_is_inside, radius, decide_eq_true_eq]
  constructor
  · intro h
    nlinarith [h]
  · intro h
    nlinarith [h]

/-- Witness for C10 at the point (1, 2). -/
theorem c10_witness :
    scene_is_inside 1 2 = true ↔ ((1 : ℚ) / 3) ^ 2 + ((2 : ℚ) / 3) ^ 2 ≤ 1 :=
  c10_scaled_unit_circle 1 2

end MonteCarloPi
